import Mathlib

/-!
Slot reservation engine: shallow embedding.

Shallow embedding of the slot-booking core of `app/utils_slots.py` and of the
slot-creation step of `app/handlers/admin.py` (repository psychobotV1),
together with proofs about the embedded operations.

Modelling conventions:
* UTC instants are `Int` values counting seconds.  Python `datetime` has
  sub-second precision, but every comparison in the source is an order
  comparison and every duration bound is a whole number of minutes, so
  integer seconds are exact: `duration_minutes < 15` iff
  `duration_seconds < 900` over the reals.
* The database tables are Lean lists.  `SELECT ... WHERE id = x` with
  `scalar_one_or_none` is `List.find?` keyed on the id (ids are primary
  keys, hence unique), and an in-transaction row mutation is `updateFirst`.
* Python strings are `List Char`; `int(...)` is modelled by `pyInt` below
  (optional surrounding whitespace, an optional sign, then decimal digits;
  the underscore digit-grouping that Python also accepts is not modelled).
* Each operation takes the current wall-clock instant `now` as an explicit
  argument standing for `datetime.utcnow()`.
-/

namespace PsychoBot

/-- Status enum of a slot (`SlotStatus` in `app.models`, used throughout
`utils_slots.py`). -/
inductive SlotStatus
  | AVAILABLE
  | HELD
  | BOOKED
deriving DecidableEq

/-- Status enum of a reservation request (`RequestStatus` in `app.models`).
Modelled from the spec: PENDING / CONFIRMED / REJECTED (§3); the model
module itself is not under `src/`. -/
inductive RequestStatus
  | PENDING
  | CONFIRMED
  | REJECTED
deriving DecidableEq

/-- Slot row.  Modelled from the spec: the `Slot` data model of §3 (the
SQLAlchemy model module is not under `src/`); the field set is exactly the
one `utils_slots.py` reads and writes. -/
structure Slot where
  id : Nat
  start_time : Int
  end_time : Int
  is_online : Bool
  status : SlotStatus
  booked_request_id : Option Nat
  updated_at : Int
  locked_until : Option Int
deriving DecidableEq

/-- Reservation-request row.  Modelled from the spec: the `Request` data
model of §3, restricted to the fields `confirm_slot_booking` touches.
`final_time` holds an instant (the source stores `isoformat()` of one). -/
structure Request where
  id : Nat
  slot_id : Option Nat
  status : RequestStatus
  scheduled_datetime : Option Int
  final_time : Option Int
deriving DecidableEq

/-- The slot store: the two tables the embedded operations read and write. -/
structure SystemState where
  slots : List Slot
  requests : List Request
deriving DecidableEq

/-- Row lookup by primary key: `select(Slot).where(Slot.id == slot_id)` with
`scalar_one_or_none`. -/
def findSlot (st : SystemState) (slot_id : Nat) : Option Slot :=
  st.slots.find? (fun s => decide (s.id = slot_id))

/-- Row lookup by primary key on the request table. -/
def findRequest (st : SystemState) (request_id : Nat) : Option Request :=
  st.requests.find? (fun r => decide (r.id = request_id))

/-- Mutation of the (unique) row matching `p` inside a transaction: the first
matching element is replaced by its image under `f`. -/
def updateFirst {α : Type} (p : α → Bool) (f : α → α) : List α → List α
  | [] => []
  | x :: rest => if p x then f x :: rest else x :: updateFirst p f rest

/-- Embedding of `hold_slot` (utils_slots.py, lines 177-205): place a
temporary hold on a slot.  Returns the new store plus the Python
`(bool, str)` result. -/
def hold_slot (st : SystemState) (slot_id : Nat) (now : Int) :
    SystemState × Bool × String :=
  match findSlot st slot_id with
  | none => (st, false, "Slot not found")
  | some slot =>
    if slot.status ≠ SlotStatus.AVAILABLE then
      (st, false, "Slot no longer available")
    else
      ({ st with
          slots := updateFirst (fun s => decide (s.id = slot_id))
            (fun s => { s with status := SlotStatus.HELD, updated_at := now })
            st.slots },
       true, "Slot held successfully")

/-- Embedding of `release_hold` (utils_slots.py, lines 208-230): release a
hold, a boolean-only result (`False` when missing or not HELD). -/
def release_hold (st : SystemState) (slot_id : Nat) (now : Int) :
    SystemState × Bool :=
  match findSlot st slot_id with
  | none => (st, false)
  | some slot =>
    if slot.status ≠ SlotStatus.HELD then
      (st, false)
    else
      ({ st with
          slots := updateFirst (fun s => decide (s.id = slot_id))
            (fun s => { s with status := SlotStatus.AVAILABLE, updated_at := now })
            st.slots },
       true)

/-- Rendering of a status inside the WrongState message (Python interpolates
`slot.status` into the f-string). -/
def statusStr : SlotStatus → String
  | .AVAILABLE => "SlotStatus.AVAILABLE"
  | .HELD => "SlotStatus.HELD"
  | .BOOKED => "SlotStatus.BOOKED"

/-- Embedding of `confirm_slot_booking` (utils_slots.py, lines 233-284):
HELD → BOOKED, link the request, and confirm the request only when
`auto_confirm_request` is true.  When no request row matches `request_id`
the source silently skips the request update and still reports success. -/
def confirm_slot_booking (st : SystemState) (slot_id request_id : Nat)
    (auto_confirm_request : Bool) (now : Int) : SystemState × Bool × String :=
  match findSlot st slot_id with
  | none => (st, false, "Slot not found")
  | some slot =>
    if slot.status ≠ SlotStatus.HELD then
      (st, false, "Slot must be HELD before booking, current: " ++ statusStr slot.status)
    else
      let slots1 := updateFirst (fun s => decide (s.id = slot_id))
        (fun s => { s with
            status := SlotStatus.BOOKED
            booked_request_id := some request_id
            locked_until := none
            updated_at := now })
        st.slots
      let requests1 :=
        match findRequest st request_id with
        | none => st.requests
        | some _ =>
          updateFirst (fun r => decide (r.id = request_id))
            (fun r =>
              let r1 := { r with
                  slot_id := some slot_id
                  scheduled_datetime := some slot.start_time }
              if auto_confirm_request then
                { r1 with
                    status := RequestStatus.CONFIRMED
                    final_time := some slot.start_time }
              else r1)
            st.requests
      ({ slots := slots1, requests := requests1 }, true, "Slot booked successfully")

/-- Embedding of `release_booked_slot` (utils_slots.py, lines 286-308): any
existing slot, whatever its status, is reset to AVAILABLE with the booking
link cleared. -/
def release_booked_slot (st : SystemState) (slot_id : Nat) (now : Int) :
    SystemState × Bool × String :=
  match findSlot st slot_id with
  | none => (st, false, "Slot not found")
  | some _ =>
    ({ st with
        slots := updateFirst (fun s => decide (s.id = slot_id))
          (fun s => { s with
              status := SlotStatus.AVAILABLE
              booked_request_id := none
              locked_until := none
              updated_at := now })
          st.slots },
     true, "Slot released")

/-- Hold lease duration (utils_slots.py, line 174). -/
def HOLD_DURATION_MINUTES : Int := 15

/-- Selection predicate of the sweep: `status = HELD and updated_at < cutoff`. -/
def expiredHold (cutoff : Int) (s : Slot) : Bool :=
  decide (s.status = SlotStatus.HELD) && decide (s.updated_at < cutoff)

/-- Embedding of `release_expired_holds` (utils_slots.py, lines 310-345): the
sweep releases every slot with `status = HELD` and
`updated_at < now - 15min` back to AVAILABLE and returns the count. -/
def release_expired_holds (st : SystemState) (now : Int) : SystemState × Nat :=
  let cutoff := now - 60 * HOLD_DURATION_MINUTES
  ({ st with
      slots := st.slots.map (fun s =>
        if expiredHold cutoff s then
          { s with status := SlotStatus.AVAILABLE, updated_at := now }
        else s) },
   (st.slots.filter (expiredHold cutoff)).length)

/-- Per-slot overlap condition of the query in `check_slot_overlap`:
same class, `Slot.start_time < end_time` and `Slot.end_time > start_time`. -/
def overlapsWith (start_time end_time : Int) (is_online : Bool) (s : Slot) : Bool :=
  decide (s.is_online = is_online) && decide (s.start_time < end_time) &&
    decide (s.end_time > start_time)

/-- Embedding of `check_slot_overlap` (utils_slots.py, lines 383-418).  The
source guards the exclusion clause with Python truthiness
(`if exclude_slot_id:`), so both `None` and `0` skip the exclusion. -/
def check_slot_overlap (st : SystemState) (start_time end_time : Int)
    (is_online : Bool) (exclude_slot_id : Option Nat) : Bool :=
  let base := st.slots.filter (overlapsWith start_time end_time is_online)
  let rows :=
    match exclude_slot_id with
    | none => base
    | some k => if k = 0 then base else base.filter (fun s => decide (s.id ≠ k))
  !rows.isEmpty

/-- Embedding of `validate_slot_time` (utils_slots.py, lines 352-380); the
duration bounds are 15 and 240 minutes, i.e. 900 and 14400 seconds. -/
def validate_slot_time (now start_time end_time : Int) : Bool × String :=
  if start_time ≤ now then (false, "Start time must be in the future")
  else if end_time ≤ start_time then (false, "End time must be after start time")
  else if end_time - start_time < 60 * 15 then
    (false, "Slot duration too short (minimum 15 minutes)")
  else if end_time - start_time > 60 * 240 then
    (false, "Slot duration too long (maximum 4 hours)")
  else (true, "")

/-- Outcome of the slot-creation step in `create_slot_confirm_input`
(admin.py, lines 910-970): invalid times are reported and nothing is
created; on overlap the handler stops to ask for an operator override;
otherwise the slot row is inserted with status AVAILABLE. -/
inductive CreateResult
  | invalidTime (msg : String)
  | overlapPrompt
  | created
deriving DecidableEq

/-- Matches the `invalidTime` outcome. -/
def CreateResult.isInvalidTime : CreateResult → Bool
  | .invalidTime _ => true
  | _ => false

/-- Fresh primary key for an inserted row (autoincrement: larger than every
existing id, in particular never 0). -/
def freshId (st : SystemState) : Nat :=
  st.slots.foldr (fun s acc => max s.id acc) 0 + 1

/-- Embedding of the slot-creation step of `create_slot_confirm_input`
(admin.py, lines 910-970), from the point where both UTC instants are known:
validate, check overlap, insert.  The new row's nullable fields follow the
model defaults.  Modelled from the spec for the defaults: `booked_request_id`
is null on creation (§3; the model module is not under `src/`). -/
def create_slot (st : SystemState) (now start_utc end_utc : Int)
    (is_online : Bool) : SystemState × CreateResult :=
  match validate_slot_time now start_utc end_utc with
  | (false, msg) => (st, CreateResult.invalidTime msg)
  | (true, _) =>
    if check_slot_overlap st start_utc end_utc is_online none then
      (st, CreateResult.overlapPrompt)
    else
      ({ st with
          slots := st.slots ++
            [{ id := freshId st
               start_time := start_utc
               end_time := end_utc
               is_online := is_online
               status := SlotStatus.AVAILABLE
               booked_request_id := none
               updated_at := now
               locked_until := none }] },
       CreateResult.created)

/-- Characters removed by Python `str.strip()` (the ASCII whitespace ones;
exotic unicode whitespace is not modelled). -/
def isPySpace (c : Char) : Bool :=
  c == ' ' || c == '\t' || c == '\n' || c == '\r' || c == '\x0b' || c == '\x0c'

/-- Python `str.strip()`: drop whitespace from both ends. -/
def pyStrip (l : List Char) : List Char :=
  ((l.dropWhile isPySpace).reverse.dropWhile isPySpace).reverse

/-- Python `str.upper()` on the ASCII range. -/
def pyUpper (l : List Char) : List Char :=
  l.map Char.toUpper

/-- Helper of `splitOnChar`: accumulates the current field reversed. -/
def splitOnCharAux (sep : Char) : List Char → List Char → List (List Char)
  | [], acc => [acc.reverse]
  | c :: rest, acc =>
    if c = sep then acc.reverse :: splitOnCharAux sep rest []
    else splitOnCharAux sep rest (c :: acc)

/-- Python `str.split(sep)` for a one-character separator. -/
def splitOnChar (sep : Char) (l : List Char) : List (List Char) :=
  splitOnCharAux sep l []

/-- Value of a nonempty all-digit string, accumulator style. -/
def digitsValAux : List Char → Nat → Option Nat
  | [], acc => some acc
  | c :: rest, acc =>
    if c.isDigit then digitsValAux rest (acc * 10 + (c.toNat - 48)) else none

/-- Value of a nonempty all-digit string; `none` on the empty string or any
non-digit character. -/
def digitsVal : List Char → Option Nat
  | [] => none
  | l => digitsValAux l 0

/-- Python `int(...)` on a decimal string: optional surrounding whitespace,
an optional single sign, then one or more digits.  (Python additionally
accepts underscore digit-grouping and unicode digits; not modelled.) -/
def pyInt (l : List Char) : Option Int :=
  match pyStrip l with
  | '+' :: rest => (digitsVal rest).map (fun n => (n : Int))
  | '-' :: rest => (digitsVal rest).map (fun n => -(n : Int))
  | rest => (digitsVal rest).map (fun n => (n : Int))

/-- Body of `parse_utc_offset` after the prefix and the sign: parse `H` or
`H:MM` via `int(...)`, combine, and apply the −720..840 range check
(utils_slots.py, lines 57-73). -/
def parseOffsetBody (sign : Int) (body : List Char) : Option Int :=
  let hm :=
    if body.contains ':' then
      match splitOnChar ':' body with
      | [hs, ms] =>
        match pyInt hs, pyInt ms with
        | some h, some m => some (h, m)
        | _, _ => none
      | _ => none
    else
      match pyInt body with
      | some h => some (h, (0 : Int))
      | none => none
  match hm with
  | none => none
  | some (h, m) =>
    let total := sign * (h * 60 + m)
    if -720 ≤ total ∧ total ≤ 840 then some total else none

/-- Embedding of `parse_utc_offset` (utils_slots.py, lines 20-76): strip,
uppercase, accept a `GMT` or `UTC` lead, a mandatory sign, hours and
optional minutes, then the range check. -/
def parse_utc_offset (offset_str : List Char) : Option Int :=
  let s := pyUpper (pyStrip offset_str)
  let rest :=
    if s.take 3 = ['G', 'M', 'T'] then some (s.drop 3)
    else if s.take 3 = ['U', 'T', 'C'] then some (s.drop 3)
    else none
  match rest with
  | none => none
  | some s1 =>
    match s1 with
    | '+' :: body => parseOffsetBody 1 body
    | '-' :: body => parseOffsetBody (-1) body
    | _ => none

/-- One lifecycle operation of the reservation engine, with the instant at
which it runs (claim C1's operation alphabet). -/
inductive LifecycleOp
  | hold (slot_id : Nat) (now : Int)
  | release (slot_id : Nat) (now : Int)
  | confirm (slot_id request_id : Nat) (auto : Bool) (now : Int)
  | releaseBooked (slot_id : Nat) (now : Int)
  | sweep (now : Int)

/-- State reached after one lifecycle operation (results discarded). -/
def applyOp (st : SystemState) : LifecycleOp → SystemState
  | .hold i n => (hold_slot st i n).1
  | .release i n => (release_hold st i n).1
  | .confirm i r a n => (confirm_slot_booking st i r a n).1
  | .releaseBooked i n => (release_booked_slot st i n).1
  | .sweep n => (release_expired_holds st n).1

/-- State reached after a sequence of lifecycle operations. -/
def applyOps (st : SystemState) : List LifecycleOp → SystemState
  | [] => st
  | op :: rest => applyOps (applyOp st op) rest

/-- The booking invariant of spec §3 and §8: a slot carries a booking link
exactly when it is BOOKED. -/
def BookedInv (st : SystemState) : Prop :=
  ∀ s ∈ st.slots, s.status = SlotStatus.BOOKED ↔ s.booked_request_id ≠ none

instance (st : SystemState) : Decidable (BookedInv st) := by
  unfold BookedInv
  infer_instance

/-- ASCII digit character for a value below 10. -/
def digitChar (n : Nat) : Char := Char.ofNat (48 + n)

/-- Canonical decimal rendering of an hour value below 100 (no leading
zero), as written in the offset forms of spec §4.1. -/
def hoursChars (h : Nat) : List Char :=
  if h < 10 then [digitChar h] else [digitChar (h / 10), digitChar (h % 10)]

/-- Canonical two-digit rendering of a minute value below 60. -/
def minutesChars (m : Nat) : List Char :=
  [digitChar (m / 10), digitChar (m % 10)]

/-- Two-digit minute field 00..59, as claim C7 reads `MM`. -/
def specMM (t : List Char) : Option Nat :=
  match t with
  | [c1, c2] =>
    if c1.isDigit ∧ c2.isDigit then
      let m := (c1.toNat - 48) * 10 + (c2.toNat - 48)
      if m < 60 then some m else none
    else none
  | _ => none

/-- Spec-side parser for claim C7, written from the spec's words (§4.1), for
comparison with `parse_utc_offset`: exactly the forms `UTC±H`, `UTC±H:MM`,
`GMT±H` (case-insensitive, optional surrounding whitespace), hour digits and
a two-digit minute field, value within −720..840.  Not part of the code. -/
def specOffsetForms (l : List Char) : Option Int :=
  let s := pyUpper (pyStrip l)
  let core : Option (Bool × List Char) :=
    if s.take 3 = ['U', 'T', 'C'] then some (true, s.drop 3)
    else if s.take 3 = ['G', 'M', 'T'] then some (false, s.drop 3)
    else none
  match core with
  | none => none
  | some (allowMM, t) =>
    let signed : Option (Int × List Char) :=
      match t with
      | '+' :: r => some (1, r)
      | '-' :: r => some (-1, r)
      | _ => none
    match signed with
    | none => none
    | some (sign, r) =>
      let hm : Option Int :=
        if r.contains ':' then
          if allowMM then
            match splitOnChar ':' r with
            | [hs, ms] =>
              match digitsVal hs, specMM ms with
              | some h, some m => some (sign * ((h : Int) * 60 + m))
              | _, _ => none
            | _ => none
          else none
        else
          (digitsVal r).map (fun h => sign * (h : Int) * 60)
      match hm with
      | none => none
      | some v => if -720 ≤ v ∧ v ≤ 840 then some v else none

/-- Example fixture: an AVAILABLE online slot, 10:00-11:00 UTC as seconds
from midnight. -/
def exSlotA : Slot :=
  { id := 1
    start_time := 36000
    end_time := 39600
    is_online := true
    status := SlotStatus.AVAILABLE
    booked_request_id := none
    updated_at := 0
    locked_until := none }

/-- Example fixture: a BOOKED slot linked to request 9. -/
def exSlotBooked : Slot :=
  { id := 2
    start_time := 43200
    end_time := 46800
    is_online := false
    status := SlotStatus.BOOKED
    booked_request_id := some 9
    updated_at := 0
    locked_until := none }

/-- Example fixture: a HELD slot whose hold was stamped at instant 0. -/
def exSlotHeld : Slot :=
  { id := 3
    start_time := 50400
    end_time := 54000
    is_online := true
    status := SlotStatus.HELD
    booked_request_id := none
    updated_at := 0
    locked_until := none }

/-- Example fixture: a PENDING request not yet linked to a slot. -/
def exReq : Request :=
  { id := 7
    slot_id := none
    status := RequestStatus.PENDING
    scheduled_datetime := none
    final_time := none }

/-- Example fixture: a store with one slot of each status and one request. -/
def exSt : SystemState :=
  { slots := [exSlotA, exSlotBooked, exSlotHeld], requests := [exReq] }

/-- Example fixture: a store holding only the held slot (claim C3). -/
def stHeldAt0 : SystemState :=
  { slots := [exSlotHeld], requests := [] }

/-- Example fixture for claim C6: one existing online slot 11:00-12:00,
touching the candidate 10:00-11:00 end to end. -/
def exStTouch : SystemState :=
  { slots := [{ id := 1
                start_time := 39600
                end_time := 43200
                is_online := true
                status := SlotStatus.AVAILABLE
                booked_request_id := none
                updated_at := 0
                locked_until := none }]
    requests := [] }

/-- Example fixture for claim C6: one existing online slot 10:30-11:30,
properly overlapping the candidate 10:00-11:00. -/
def exStOverlap : SystemState :=
  { slots := [{ id := 1
                start_time := 37800
                end_time := 41400
                is_online := true
                status := SlotStatus.AVAILABLE
                booked_request_id := none
                updated_at := 0
                locked_until := none }]
    requests := [] }

/-- Example fixture: the empty store. -/
def emptySt : SystemState := { slots := [], requests := [] }

/-- The claim C7 counterexample input, `GMT+5:30`. -/
def gmt530 : List Char := ['G', 'M', 'T', '+', '5', ':', '3', '0']

/-! ## Shared lemmas about the store primitives -/

theorem find?_updateFirst {α : Type} (p : α → Bool) (f : α → α)
    (hf : ∀ a, p a = true → p (f a) = true) :
    ∀ l : List α, (updateFirst p f l).find? p = (l.find? p).map f := by
  intro l
  induction l with
  | nil => simp [updateFirst]
  | cons x rest ih =>
    by_cases hx : p x = true
    · rw [updateFirst, if_pos hx, List.find?_cons_of_pos _ (hf x hx),
        List.find?_cons_of_pos _ hx, Option.map_some']
    · rw [updateFirst, if_neg hx, List.find?_cons_of_neg _ (by simpa using hx),
        List.find?_cons_of_neg _ (by simpa using hx), ih]

theorem mem_updateFirst {α : Type} {p : α → Bool} {f : α → α} :
    ∀ {l : List α} {x : α}, x ∈ updateFirst p f l →
      x ∈ l ∨ ∃ a, l.find? p = some a ∧ x = f a := by
  intro l
  induction l with
  | nil => intro x hx; simp [updateFirst] at hx
  | cons c rest ih =>
    intro x hx
    by_cases hc : p c = true
    · rw [updateFirst, if_pos hc] at hx
      rcases List.mem_cons.mp hx with hx | hx
      · exact Or.inr ⟨c, List.find?_cons_of_pos _ hc, hx⟩
      · exact Or.inl (List.mem_cons_of_mem _ hx)
    · rw [updateFirst, if_neg hc] at hx
      rcases List.mem_cons.mp hx with hx | hx
      · exact Or.inl (hx ▸ List.mem_cons_self _ _)
      · rcases ih hx with hx | ⟨a, ha, hfa⟩
        · exact Or.inl (List.mem_cons_of_mem _ hx)
        · exact Or.inr ⟨a, by rw [List.find?_cons_of_neg _ (by simpa using hc)]; exact ha, hfa⟩

theorem findSlot_set_updateFirst (st : SystemState) (slot_id : Nat)
    (f : Slot → Slot) (hf : ∀ s, (f s).id = s.id) (requests : List Request) :
    findSlot { slots := updateFirst (fun s => decide (s.id = slot_id)) f st.slots,
               requests := requests } slot_id = (findSlot st slot_id).map f := by
  show (updateFirst (fun s => decide (s.id = slot_id)) f st.slots).find?
      (fun s => decide (s.id = slot_id)) = _
  exact find?_updateFirst (fun s => decide (s.id = slot_id)) f
    (fun a ha => by simpa [hf a] using ha) st.slots

theorem findRequest_set_updateFirst (st : SystemState) (request_id : Nat)
    (f : Request → Request) (hf : ∀ r, (f r).id = r.id) (slots : List Slot) :
    findRequest { slots := slots,
                  requests := updateFirst (fun r => decide (r.id = request_id)) f st.requests }
      request_id = (findRequest st request_id).map f := by
  show (updateFirst (fun r => decide (r.id = request_id)) f st.requests).find?
      (fun r => decide (r.id = request_id)) = _
  exact find?_updateFirst (fun r => decide (r.id = request_id)) f
    (fun a ha => by simpa [hf a] using ha) st.requests

theorem find?_map_congr {α : Type} (p : α → Bool) (f : α → α)
    (h : ∀ a, p (f a) = p a) :
    ∀ l : List α, (l.map f).find? p = (l.find? p).map f := by
  intro l
  induction l with
  | nil => simp
  | cons x rest ih =>
    by_cases hx : p x = true
    · rw [List.map_cons, List.find?_cons_of_pos _ (by rw [h]; exact hx),
        List.find?_cons_of_pos _ hx, Option.map_some']
    · rw [List.map_cons, List.find?_cons_of_neg _ (by rw [h]; simpa using hx),
        List.find?_cons_of_neg _ (by simpa using hx), ih]

/-! ## Claims -/

/-- C10: `check_slot_overlap` called with `exclude_slot_id = some 0` behaves
exactly as with no exclusion given — the source guards the exclusion clause
with Python truthiness (`if exclude_slot_id:`), under which 0 is falsy — so
a slot whose id is 0 is never excluded from the overlap check. -/
theorem claim_C10_exclude_zero_is_no_exclusion (st : SystemState)
    (start_time end_time : Int) (is_online : Bool) :
    check_slot_overlap st start_time end_time is_online (some 0) =
      check_slot_overlap st start_time end_time is_online none := by
  simp [check_slot_overlap]

/-- Witness for C10: the equality instantiated on the overlap fixture,
whose result is `true` either way. -/
theorem claim_C10_witness :
    check_slot_overlap exStOverlap 36000 39600 true (some 0) =
      check_slot_overlap exStOverlap 36000 39600 true none ∧
    check_slot_overlap exStOverlap 36000 39600 true (some 0) = true :=
  ⟨claim_C10_exclude_zero_is_no_exclusion exStOverlap 36000 39600 true, by decide⟩

/-- C9: `release_booked_slot` performs no state check: for every existing
slot, whatever its current status, it returns success and leaves the slot
AVAILABLE with `booked_request_id = null`; only a nonexistent id yields
NotFound. -/
theorem claim_C9_release_booked_no_state_check (st : SystemState)
    (slot_id : Nat) (now : Int) :
    (findSlot st slot_id = none →
      release_booked_slot st slot_id now = (st, false, "Slot not found")) ∧
    (∀ sl, findSlot st slot_id = some sl →
      (release_booked_slot st slot_id now).2 = (true, "Slot released") ∧
      findSlot (release_booked_slot st slot_id now).1 slot_id =
        some { sl with status := SlotStatus.AVAILABLE, booked_request_id := none, locked_until := none, updated_at := now }) := by
  constructor
  · intro h
    simp [release_booked_slot, h]
  · intro sl h
    refine ⟨by simp [release_booked_slot, h], ?_⟩
    simp only [release_booked_slot, h]
    rw [findSlot_set_updateFirst, h, Option.map_some']
    exact fun s => rfl

/-- Witness for C9: releasing the held slot of the example store (a
non-BOOKED status) still succeeds and clears it to AVAILABLE. -/
theorem claim_C9_witness :
    findSlot exSt 3 = some exSlotHeld ∧
    (release_booked_slot exSt 3 5).2 = (true, "Slot released") ∧
    findSlot (release_booked_slot exSt 3 5).1 3 =
      some { exSlotHeld with status := SlotStatus.AVAILABLE, booked_request_id := none, locked_until := none, updated_at := 5 } :=
  ⟨by decide,
   ((claim_C9_release_booked_no_state_check exSt 3 5).2 exSlotHeld (by decide)).1,
   ((claim_C9_release_booked_no_state_check exSt 3 5).2 exSlotHeld (by decide)).2⟩

/-- C2: `hold_slot` transitions AVAILABLE → HELD stamping
`updated_at = now`; NotFound when no slot with the id exists; NotAvailable,
with the store unchanged, exactly when the slot exists in any status other
than AVAILABLE. -/
theorem claim_C2_hold_contract (st : SystemState) (slot_id : Nat) (now : Int) :
    (findSlot st slot_id = none →
      hold_slot st slot_id now = (st, false, "Slot not found")) ∧
    (∀ sl, findSlot st slot_id = some sl → sl.status ≠ SlotStatus.AVAILABLE →
      hold_slot st slot_id now = (st, false, "Slot no longer available")) ∧
    (∀ sl, findSlot st slot_id = some sl → sl.status = SlotStatus.AVAILABLE →
      (hold_slot st slot_id now).2 = (true, "Slot held successfully") ∧
      findSlot (hold_slot st slot_id now).1 slot_id =
        some { sl with status := SlotStatus.HELD, updated_at := now }) := by
  refine ⟨fun h => by simp [hold_slot, h], fun sl h hne => by simp [hold_slot, h, hne], ?_⟩
  intro sl h hav
  refine ⟨by simp [hold_slot, h, hav], ?_⟩
  simp only [hold_slot, h, hav, ne_eq, not_true_eq_false, if_false]
  rw [findSlot_set_updateFirst, h, Option.map_some']
  exact fun s => rfl

/-- Witness for C2: on the example store, holding the available slot 1 at
instant 50 succeeds and stamps it; the booked slot 2 is refused. -/
theorem claim_C2_witness :
    findSlot exSt 1 = some exSlotA ∧ exSlotA.status = SlotStatus.AVAILABLE ∧
    (hold_slot exSt 1 50).2 = (true, "Slot held successfully") ∧
    findSlot (hold_slot exSt 1 50).1 1 =
      some { exSlotA with status := SlotStatus.HELD, updated_at := 50 } ∧
    hold_slot exSt 2 50 = (exSt, false, "Slot no longer available") :=
  ⟨by decide, by decide,
   ((claim_C2_hold_contract exSt 1 50).2.2 exSlotA (by decide) (by decide)).1,
   ((claim_C2_hold_contract exSt 1 50).2.2 exSlotA (by decide) (by decide)).2,
   (claim_C2_hold_contract exSt 2 50).2.1 exSlotBooked (by decide) (by decide)⟩

/-- C5: for a slot that is AVAILABLE with a null `booked_request_id`,
`hold` followed by `release` returns it to AVAILABLE with
`booked_request_id` unchanged (still null). -/
theorem claim_C5_hold_release_roundtrip (st : SystemState) (slot_id : Nat)
    (t1 t2 : Int) (sl : Slot) (hfind : findSlot st slot_id = some sl)
    (hav : sl.status = SlotStatus.AVAILABLE)
    (hnull : sl.booked_request_id = none) :
    ∃ sl2, findSlot (release_hold (hold_slot st slot_id t1).1 slot_id t2).1 slot_id = some sl2 ∧
      sl2.status = SlotStatus.AVAILABLE ∧ sl2.booked_request_id = none := by
  have hf1 : findSlot (hold_slot st slot_id t1).1 slot_id =
      some { sl with status := SlotStatus.HELD, updated_at := t1 } := by
    simp only [hold_slot, hfind, hav, ne_eq, not_true_eq_false, if_false]
    rw [findSlot_set_updateFirst, hfind, Option.map_some']
    exact fun s => rfl
  have hf2 : findSlot (release_hold (hold_slot st slot_id t1).1 slot_id t2).1 slot_id =
      some { sl with status := SlotStatus.AVAILABLE, updated_at := t2 } := by
    simp only [release_hold, hf1, ne_eq, not_true_eq_false, if_false]
    rw [findSlot_set_updateFirst, hf1, Option.map_some']
    exact fun s => rfl
  exact ⟨{ sl with status := SlotStatus.AVAILABLE, updated_at := t2 }, hf2, rfl, hnull⟩

/-- Witness for C5: the round trip on the available slot of the example
store. -/
theorem claim_C5_witness :
    ∃ sl2, findSlot (release_hold (hold_slot exSt 1 10).1 1 20).1 1 = some sl2 ∧
      sl2.status = SlotStatus.AVAILABLE ∧ sl2.booked_request_id = none :=
  claim_C5_hold_release_roundtrip exSt 1 10 20 exSlotA (by decide) (by decide) (by decide)

/-- C4: `confirm_slot_booking` on a HELD slot reports success, moves the
slot to BOOKED with `booked_request_id = requestId`, and, when a request row
with that id exists, always sets its `slot_id` and scheduled time; the
request's status becomes CONFIRMED exactly when `auto_confirm_request` is
true and is otherwise untouched; on any non-HELD slot it fails with the
WrongState message and changes nothing. -/
theorem claim_C4_confirm_contract (st : SystemState) (slot_id request_id : Nat)
    (auto : Bool) (now : Int) (sl : Slot) (hfind : findSlot st slot_id = some sl) :
    (sl.status ≠ SlotStatus.HELD →
      confirm_slot_booking st slot_id request_id auto now =
        (st, false, "Slot must be HELD before booking, current: " ++ statusStr sl.status)) ∧
    (sl.status = SlotStatus.HELD →
      (confirm_slot_booking st slot_id request_id auto now).2 = (true, "Slot booked successfully") ∧
      findSlot (confirm_slot_booking st slot_id request_id auto now).1 slot_id =
        some { sl with status := SlotStatus.BOOKED, booked_request_id := some request_id, locked_until := none, updated_at := now } ∧
      (∀ rq, findRequest st request_id = some rq →
        findRequest (confirm_slot_booking st slot_id request_id auto now).1 request_id =
          some (if auto then { rq with slot_id := some slot_id, scheduled_datetime := some sl.start_time, status := RequestStatus.CONFIRMED, final_time := some sl.start_time } else { rq with slot_id := some slot_id, scheduled_datetime := some sl.start_time }))) := by
  constructor
  · intro hne
    simp [confirm_slot_booking, hfind, hne]
  · intro hheld
    refine ⟨by simp [confirm_slot_booking, hfind, hheld], ?_, ?_⟩
    · simp only [confirm_slot_booking, hfind, hheld, ne_eq, not_true_eq_false, if_false]
      rw [findSlot_set_updateFirst, hfind, Option.map_some']
      exact fun s => rfl
    · intro rq hrq
      cases auto with
      | false =>
        simp only [confirm_slot_booking, hfind, hheld, hrq, ne_eq, not_true_eq_false,
          if_false, Bool.false_eq_true]
        rw [findRequest_set_updateFirst, hrq, Option.map_some']
        exact fun r => rfl
      | true =>
        simp only [confirm_slot_booking, hfind, hheld, hrq, ne_eq, not_true_eq_false,
          if_false, if_true]
        rw [findRequest_set_updateFirst, hrq, Option.map_some']
        exact fun r => rfl

/-- Witness for C4: confirming the held slot 3 of the example store against
the pending request 7, without auto-confirm; the slot becomes BOOKED while
the request keeps its PENDING status but gains the link and the time. -/
theorem claim_C4_witness :
    (confirm_slot_booking exSt 3 7 false 60).2 = (true, "Slot booked successfully") ∧
    findSlot (confirm_slot_booking exSt 3 7 false 60).1 3 =
      some { exSlotHeld with status := SlotStatus.BOOKED, booked_request_id := some 7, locked_until := none, updated_at := 60 } ∧
    findRequest (confirm_slot_booking exSt 3 7 false 60).1 7 =
      some { exReq with slot_id := some 3, scheduled_datetime := some exSlotHeld.start_time } ∧
    confirm_slot_booking exSt 1 7 false 60 =
      (exSt, false, "Slot must be HELD before booking, current: " ++ statusStr exSlotA.status) := by
  have h := claim_C4_confirm_contract exSt 3 7 false 60 exSlotHeld (by decide)
  have h1 := claim_C4_confirm_contract exSt 1 7 false 60 exSlotA (by decide)
  refine ⟨(h.2 rfl).1, (h.2 rfl).2.1, ?_, h1.1 (by decide)⟩
  simpa using (h.2 rfl).2.2 exReq (by decide)

theorem bookedInv_hold (st : SystemState) (i : Nat) (n : Int)
    (h : BookedInv st) : BookedInv (hold_slot st i n).1 := by
  unfold hold_slot
  cases hfind : findSlot st i with
  | none => exact h
  | some sl =>
    by_cases hav : sl.status = SlotStatus.AVAILABLE
    · simp only [hav, ne_eq, not_true_eq_false, if_false]
      intro x hx
      rcases mem_updateFirst hx with hx | ⟨a, ha, rfl⟩
      · exact h x hx
      · have ha' : findSlot st i = some a := ha
        rw [hfind] at ha'
        obtain rfl : sl = a := Option.some.inj ha'
        have hbk := h sl (List.mem_of_find?_eq_some ha)
        rw [hav] at hbk
        simp only [reduceCtorEq, false_iff, ne_eq, not_not] at hbk
        simp [hbk]
    · simp only [hav, ne_eq, not_false_eq_true, if_true]
      exact h

theorem bookedInv_release_hold (st : SystemState) (i : Nat) (n : Int)
    (h : BookedInv st) : BookedInv (release_hold st i n).1 := by
  unfold release_hold
  cases hfind : findSlot st i with
  | none => exact h
  | some sl =>
    by_cases hheld : sl.status = SlotStatus.HELD
    · simp only [hheld, ne_eq, not_true_eq_false, if_false]
      intro x hx
      rcases mem_updateFirst hx with hx | ⟨a, ha, rfl⟩
      · exact h x hx
      · have ha' : findSlot st i = some a := ha
        rw [hfind] at ha'
        obtain rfl : sl = a := Option.some.inj ha'
        have hbk := h sl (List.mem_of_find?_eq_some ha)
        rw [hheld] at hbk
        simp only [reduceCtorEq, false_iff, ne_eq, not_not] at hbk
        simp [hbk]
    · simp only [hheld, ne_eq, not_false_eq_true, if_true]
      exact h

theorem bookedInv_confirm (st : SystemState) (i r : Nat) (auto : Bool)
    (n : Int) (h : BookedInv st) : BookedInv (confirm_slot_booking st i r auto n).1 := by
  unfold confirm_slot_booking
  cases hfind : findSlot st i with
  | none => exact h
  | some sl =>
    by_cases hheld : sl.status = SlotStatus.HELD
    · simp only [hheld, ne_eq, not_true_eq_false, if_false]
      intro x hx
      rcases mem_updateFirst hx with hx | ⟨a, ha, rfl⟩
      · exact h x hx
      · simp
    · simp only [hheld, ne_eq, not_false_eq_true, if_true]
      exact h

theorem bookedInv_release_booked (st : SystemState) (i : Nat) (n : Int)
    (h : BookedInv st) : BookedInv (release_booked_slot st i n).1 := by
  unfold release_booked_slot
  cases hfind : findSlot st i with
  | none => exact h
  | some sl =>
    intro x hx
    rcases mem_updateFirst hx with hx | ⟨a, ha, rfl⟩
    · exact h x hx
    · simp

theorem bookedInv_sweep (st : SystemState) (n : Int)
    (h : BookedInv st) : BookedInv (release_expired_holds st n).1 := by
  unfold release_expired_holds
  intro x hx
  rcases List.mem_map.mp hx with ⟨a, hamem, rfl⟩
  by_cases hexp : expiredHold (n - 60 * HOLD_DURATION_MINUTES) a = true
  · have hheld : a.status = SlotStatus.HELD := by
      have := hexp
      unfold expiredHold at this
      simp only [Bool.and_eq_true, decide_eq_true_eq] at this
      exact this.1
    have hbk := h a hamem
    rw [hheld] at hbk
    simp only [reduceCtorEq, false_iff, ne_eq, not_not] at hbk
    simp [hexp, hbk]
  · simp only [Bool.not_eq_true] at hexp
    simp only [hexp, Bool.false_eq_true, if_false]
    exact h a hamem

theorem bookedInv_applyOp (st : SystemState) (op : LifecycleOp)
    (h : BookedInv st) : BookedInv (applyOp st op) := by
  cases op with
  | hold i n => exact bookedInv_hold st i n h
  | release i n => exact bookedInv_release_hold st i n h
  | confirm i r a n => exact bookedInv_confirm st i r a n h
  | releaseBooked i n => exact bookedInv_release_booked st i n h
  | sweep n => exact bookedInv_sweep st n h

/-- C1: the booking invariant — `status = BOOKED` iff
`booked_request_id ≠ null`, for every slot — holds at every instant reached
from an invariant-satisfying store by any sequence of the lifecycle
operations hold, release, confirmBooking, releaseBooked and the sweep; in
particular every single operation preserves it. -/
theorem claim_C1_booked_invariant (ops : List LifecycleOp) (st : SystemState)
    (h : BookedInv st) : BookedInv (applyOps st ops) := by
  induction ops generalizing st with
  | nil => exact h
  | cons op rest ih => exact ih (applyOp st op) (bookedInv_applyOp st op h)

/-- Witness for C1: a concrete five-operation run over the example store,
exercising all five operations. -/
theorem claim_C1_witness :
    BookedInv exSt ∧
    BookedInv (applyOps exSt [LifecycleOp.hold 1 10, LifecycleOp.confirm 1 7 true 20,
      LifecycleOp.sweep 2000, LifecycleOp.releaseBooked 1 30, LifecycleOp.release 3 40]) :=
  ⟨by decide, claim_C1_booked_invariant _ exSt (by decide)⟩

theorem findSlot_set_map (st : SystemState) (slot_id : Nat) (g : Slot → Slot)
    (hg : ∀ s, (g s).id = s.id) (requests : List Request) :
    findSlot { slots := st.slots.map g, requests := requests } slot_id =
      (findSlot st slot_id).map g := by
  show (st.slots.map g).find? (fun s => decide (s.id = slot_id)) = _
  exact find?_map_congr (fun s => decide (s.id = slot_id)) g
    (fun a => by simp [hg a]) st.slots

/-- Counterexample to C3 as stated: the slot of `stHeldAt0` is held at
T = 0, and the sweep is run exactly at T + 15 minutes — an instant the
claim says must already release it.  The sweep's condition is the strict
`updated_at < now − 15min`, so it releases nothing and the slot stays
HELD. -/
theorem claim_C3_counterexample :
    (findSlot stHeldAt0 3).map Slot.status = some SlotStatus.HELD ∧
    (findSlot stHeldAt0 3).map Slot.updated_at = some 0 ∧
    release_expired_holds stHeldAt0 (0 + 60 * HOLD_DURATION_MINUTES) = (stHeldAt0, 0) ∧
    (findSlot (release_expired_holds stHeldAt0 (0 + 60 * HOLD_DURATION_MINUTES)).1 3).map
      Slot.status ≠ some SlotStatus.AVAILABLE := by
  decide

/-- C3 (amended): the sweep rewrites every slot by the rule "release exactly
when `status = HELD` and `updated_at < now − 15min`"; hence a slot held at
time T with no further action is AVAILABLE after a sweep run at any time
strictly greater than T + 15min and still HELD after a sweep run at any
time up to and including T + 15min. -/
theorem claim_C3_sweep_contract (st : SystemState) (slot_id : Nat)
    (T now : Int) (sl : Slot) (hfind : findSlot st slot_id = some sl) :
    (findSlot (release_expired_holds st now).1 slot_id =
      some (if expiredHold (now - 60 * HOLD_DURATION_MINUTES) sl then { sl with status := SlotStatus.AVAILABLE, updated_at := now } else sl)) ∧
    (sl.status = SlotStatus.HELD → sl.updated_at = T →
      ((now > T + 60 * HOLD_DURATION_MINUTES →
        findSlot (release_expired_holds st now).1 slot_id =
          some { sl with status := SlotStatus.AVAILABLE, updated_at := now }) ∧
       (now ≤ T + 60 * HOLD_DURATION_MINUTES →
        findSlot (release_expired_holds st now).1 slot_id = some sl))) := by
  have h1 : findSlot (release_expired_holds st now).1 slot_id =
      some (if expiredHold (now - 60 * HOLD_DURATION_MINUTES) sl then { sl with status := SlotStatus.AVAILABLE, updated_at := now } else sl) := by
    unfold release_expired_holds
    rw [findSlot_set_map st slot_id _
      (fun s => by by_cases hx : expiredHold (now - 60 * HOLD_DURATION_MINUTES) s = true <;> simp [hx])
      st.requests, hfind, Option.map_some']
  refine ⟨h1, fun hheld hupd => ⟨fun hgt => ?_, fun hle => ?_⟩⟩
  · have hex : expiredHold (now - 60 * HOLD_DURATION_MINUTES) sl = true := by
      simp only [expiredHold, HOLD_DURATION_MINUTES, hheld, hupd, decide_True,
        Bool.true_and, decide_eq_true_eq]
      simp only [HOLD_DURATION_MINUTES] at hgt
      omega
    rw [if_pos hex] at h1
    exact h1
  · have hex : expiredHold (now - 60 * HOLD_DURATION_MINUTES) sl = false := by
      simp only [expiredHold, HOLD_DURATION_MINUTES, hheld, hupd, decide_True,
        Bool.true_and, decide_eq_false_iff_not]
      simp only [HOLD_DURATION_MINUTES] at hle
      omega
    rw [if_neg (by simp [hex])] at h1
    exact h1

/-- Witness for C3 (amended): the held-at-0 slot is still HELD after a
sweep at instant 900 (= T + 15min) and AVAILABLE after a sweep at 901. -/
theorem claim_C3_witness :
    findSlot stHeldAt0 3 = some exSlotHeld ∧
    exSlotHeld.status = SlotStatus.HELD ∧ exSlotHeld.updated_at = 0 ∧
    findSlot (release_expired_holds stHeldAt0 901).1 3 =
      some { exSlotHeld with status := SlotStatus.AVAILABLE, updated_at := 901 } ∧
    findSlot (release_expired_holds stHeldAt0 900).1 3 = some exSlotHeld :=
  ⟨by decide, by decide, by decide,
   ((claim_C3_sweep_contract stHeldAt0 3 0 901 exSlotHeld (by decide)).2 rfl rfl).1 (by decide),
   ((claim_C3_sweep_contract stHeldAt0 3 0 900 exSlotHeld (by decide)).2 rfl rfl).2 (by decide)⟩

theorem not_isEmpty_iff_exists_mem {α : Type} (l : List α) :
    (!l.isEmpty) = true ↔ ∃ x, x ∈ l := by
  cases l <;> simp

theorem mem_overlap_base {st : SystemState} {s e : Int} {b : Bool} {x : Slot} :
    x ∈ st.slots.filter (overlapsWith s e b) ↔
      x ∈ st.slots ∧ x.is_online = b ∧ x.start_time < e ∧ x.end_time > s := by
  rw [List.mem_filter]
  simp [overlapsWith, and_assoc]

/-- C6: `check_slot_overlap` returns true iff some existing slot of the same
`is_online` class — other than the excluded id, when one is given —
satisfies `existing.start < end` and `existing.end > start`, for any store
whose ids are genuine autoincrement primary keys (no id 0; the source's
truthiness guard makes an excluded id 0 behave as no exclusion, claim C10).
In particular the candidate 10:00-11:00 does not overlap an existing
11:00-12:00 slot (touching endpoints) and does overlap an existing
10:30-11:30 slot. -/
theorem claim_C6_overlap_iff (st : SystemState) (start_time end_time : Int)
    (is_online : Bool) (exclude_slot_id : Option Nat)
    (hids : ∀ sl ∈ st.slots, sl.id ≠ 0) :
    (check_slot_overlap st start_time end_time is_online exclude_slot_id = true ↔
      ∃ sl ∈ st.slots, sl.is_online = is_online ∧
        (∀ k, exclude_slot_id = some k → sl.id ≠ k) ∧
        sl.start_time < end_time ∧ sl.end_time > start_time) ∧
    check_slot_overlap exStTouch 36000 39600 true none = false ∧
    check_slot_overlap exStOverlap 36000 39600 true none = true := by
  refine ⟨?_, by decide, by decide⟩
  unfold check_slot_overlap
  rcases exclude_slot_id with _ | k
  · dsimp only
    rw [not_isEmpty_iff_exists_mem]
    constructor
    · rintro ⟨x, hx⟩
      rw [mem_overlap_base] at hx
      refine ⟨x, hx.1, hx.2.1, ?_, hx.2.2.1, hx.2.2.2⟩
      intro k h
      exact Option.noConfusion h
    · rintro ⟨sl, hmem, hb, _, hlt, hgt⟩
      exact ⟨sl, mem_overlap_base.mpr ⟨hmem, hb, hlt, hgt⟩⟩
  · by_cases hk : k = 0
    · subst hk
      dsimp only
      rw [if_pos rfl, not_isEmpty_iff_exists_mem]
      constructor
      · rintro ⟨x, hx⟩
        rw [mem_overlap_base] at hx
        refine ⟨x, hx.1, hx.2.1, ?_, hx.2.2.1, hx.2.2.2⟩
        intro k' hk'
        obtain rfl : k' = 0 := (Option.some.inj hk').symm
        exact hids x hx.1
      · rintro ⟨sl, hmem, hb, _, hlt, hgt⟩
        exact ⟨sl, mem_overlap_base.mpr ⟨hmem, hb, hlt, hgt⟩⟩
    · dsimp only
      rw [if_neg hk, not_isEmpty_iff_exists_mem]
      constructor
      · rintro ⟨x, hx⟩
        rw [List.mem_filter, mem_overlap_base] at hx
        refine ⟨x, hx.1.1, hx.1.2.1, ?_, hx.1.2.2.1, hx.1.2.2.2⟩
        intro k' hk'
        obtain rfl : k' = k := (Option.some.inj hk').symm
        exact of_decide_eq_true hx.2
      · rintro ⟨sl, hmem, hb, hexcl, hlt, hgt⟩
        refine ⟨sl, List.mem_filter.mpr ⟨mem_overlap_base.mpr ⟨hmem, hb, hlt, hgt⟩, ?_⟩⟩
        exact decide_eq_true (hexcl k rfl)

/-- Witness for C6: instantiating the characterization on the
proper-overlap fixture with no exclusion. -/
theorem claim_C6_witness :
    check_slot_overlap exStOverlap 36000 39600 true none = true ↔
      ∃ sl ∈ exStOverlap.slots, sl.is_online = true ∧
        (∀ k, (none : Option Nat) = some k → sl.id ≠ k) ∧
        sl.start_time < 39600 ∧ sl.end_time > 36000 :=
  (claim_C6_overlap_iff exStOverlap 36000 39600 true none (by decide)).1

theorem pyStrip_three (a b c : Char) (l : List Char)
    (ha : isPySpace a = false) (hc : isPySpace c = false) :
    pyStrip (a :: b :: c :: l) = a :: b :: c :: (l.reverse.dropWhile isPySpace).reverse := by
  unfold pyStrip
  rw [List.dropWhile_cons, if_neg (by simp [ha])]
  rw [show (a :: b :: c :: l).reverse = l.reverse ++ [c, b, a] by simp]
  rw [List.dropWhile_append]
  by_cases hemp : (l.reverse.dropWhile isPySpace).isEmpty = true
  · rw [if_pos hemp, List.isEmpty_iff.mp hemp]
    rw [List.dropWhile_cons, if_neg (by simp [hc])]
    simp
  · rw [if_neg hemp, List.reverse_append]
    simp

theorem parse_gmt_eq_utc (l : List Char) :
    parse_utc_offset ('G' :: 'M' :: 'T' :: l) = parse_utc_offset ('U' :: 'T' :: 'C' :: l) := by
  unfold parse_utc_offset
  rw [pyStrip_three 'G' 'M' 'T' l (by decide) (by decide),
      pyStrip_three 'U' 'T' 'C' l (by decide) (by decide)]
  simp only [pyUpper, List.map_cons]
  rw [(by decide : 'G'.toUpper = 'G'), (by decide : 'M'.toUpper = 'M'),
      (by decide : 'T'.toUpper = 'T'), (by decide : 'U'.toUpper = 'U'),
      (by decide : 'C'.toUpper = 'C')]
  have htake : ∀ (x y z : Char) (X : List Char), List.take 3 (x :: y :: z :: X) = [x, y, z] :=
    fun _ _ _ _ => rfl
  have hdrop : ∀ (x y z : Char) (X : List Char), List.drop 3 (x :: y :: z :: X) = X :=
    fun _ _ _ _ => rfl
  rw [htake, htake, hdrop, hdrop]
  rw [if_pos rfl, if_neg (by decide), if_pos rfl]

theorem parseOffsetBody_range (sign : Int) (body : List Char) (v : Int)
    (h : parseOffsetBody sign body = some v) : -720 ≤ v ∧ v ≤ 840 := by
  unfold parseOffsetBody at h
  dsimp only at h
  split at h
  · exact Option.noConfusion h
  · split at h
    · rename_i hrange
      obtain rfl := Option.some.inj h
      exact hrange
    · exact Option.noConfusion h

theorem parse_utc_offset_range (l : List Char) (v : Int)
    (h : parse_utc_offset l = some v) : -720 ≤ v ∧ v ≤ 840 := by
  unfold parse_utc_offset at h
  dsimp only at h
  split at h
  · exact Option.noConfusion h
  · split at h
    · exact parseOffsetBody_range _ _ _ h
    · exact parseOffsetBody_range _ _ _ h
    · exact Option.noConfusion h

/-- Counterexample to C7 as stated: `GMT+5:30` is not among the three
claimed forms (`UTC±H`, `UTC±H:MM`, `GMT±H`), yet `parse_utc_offset`
accepts it with value 330 — the source strips the `GMT` lead exactly like
`UTC` and never forbids the `H:MM` tail after it. -/
theorem claim_C7_counterexample :
    specOffsetForms gmt530 = none ∧ parse_utc_offset gmt530 = some 330 := by
  decide

/-- C7 (amended): `parse_utc_offset` accepts the forms `UTC±H`, `UTC±H:MM`,
`GMT±H` and also `GMT±H:MM` — the `GMT` and `UTC` leads are fully
interchangeable — case-insensitively, for every in-range value; every
accepted input yields a value within −720..840; `UTC+4` gives 240,
`UTC-5:30` gives −330, and the out-of-range `UTC+15` is rejected, as are
inputs without a `UTC`/`GMT` lead or without a sign. -/
theorem claim_C7_offset_contract :
    (∀ l v, parse_utc_offset l = some v → -720 ≤ v ∧ v ≤ 840) ∧
    (∀ l, parse_utc_offset ('G' :: 'M' :: 'T' :: l) = parse_utc_offset ('U' :: 'T' :: 'C' :: l)) ∧
    (∀ h : Fin 15, parse_utc_offset (['U', 'T', 'C', '+'] ++ hoursChars h.1) = some (60 * (h.1 : Int))) ∧
    (∀ h : Fin 13, parse_utc_offset (['U', 'T', 'C', '-'] ++ hoursChars h.1) = some (-(60 * (h.1 : Int)))) ∧
    (∀ h : Fin 14, ∀ m : Fin 60, parse_utc_offset (['U', 'T', 'C', '+'] ++ hoursChars h.1 ++ ':' :: minutesChars m.1) = some (60 * (h.1 : Int) + (m.1 : Int))) ∧
    (∀ h : Fin 12, ∀ m : Fin 60, parse_utc_offset (['U', 'T', 'C', '-'] ++ hoursChars h.1 ++ ':' :: minutesChars m.1) = some (-(60 * (h.1 : Int) + (m.1 : Int)))) ∧
    parse_utc_offset ['U', 'T', 'C', '+', '4'] = some 240 ∧
    parse_utc_offset ['U', 'T', 'C', '-', '5', ':', '3', '0'] = some (-330) ∧
    parse_utc_offset ['U', 'T', 'C', '+', '1', '5'] = none ∧
    parse_utc_offset ['u', 't', 'c', '+', '4'] = some 240 ∧
    parse_utc_offset [' ', 'g', 'm', 't', '+', '3', ' '] = some 180 ∧
    parse_utc_offset ['E', 'S', 'T', '+', '4'] = none ∧
    parse_utc_offset ['U', 'T', 'C', '4'] = none ∧
    parse_utc_offset [] = none := by
  refine ⟨parse_utc_offset_range, parse_gmt_eq_utc, by decide, by decide, by decide,
    by decide, by decide, by decide, by decide, by decide, by decide, by decide,
    by decide, by decide⟩

/-- Witness for C7 (amended): the range bound instantiated at the
`UTC-5:30` example. -/
theorem claim_C7_witness :
    parse_utc_offset ['U', 'T', 'C', '-', '5', ':', '3', '0'] = some (-330) ∧
    -720 ≤ (-330 : Int) ∧ (-330 : Int) ≤ 840 :=
  ⟨by decide, claim_C7_offset_contract.1 ['U', 'T', 'C', '-', '5', ':', '3', '0'] (-330) (by decide)⟩

theorem validate_slot_time_false_iff (now s e : Int) :
    (validate_slot_time now s e).1 = false ↔
      (s ≤ now ∨ e ≤ s ∨ e - s < 60 * 15 ∨ e - s > 60 * 240) := by
  unfold validate_slot_time
  split_ifs with h1 h2 h3 h4 <;> simp <;> omega

/-- C8: the slot-creation step fails with an InvalidTimeRange message
exactly when start is not strictly in the future, or end ≤ start, or the
duration lies outside 15..240 minutes (900..14400 seconds) inclusive; on
such a failure the store is unchanged; durations of exactly 15 and exactly
240 minutes are accepted (a slot is actually created). -/
theorem claim_C8_create_slot_contract (st : SystemState) (now s e : Int) (b : Bool) :
    ((create_slot st now s e b).2.isInvalidTime = true ↔
      (s ≤ now ∨ e ≤ s ∨ e - s < 60 * 15 ∨ e - s > 60 * 240)) ∧
    ((create_slot st now s e b).2.isInvalidTime = true → (create_slot st now s e b).1 = st) ∧
    (create_slot emptySt 0 60 960 true).2 = CreateResult.created ∧
    (create_slot emptySt 0 60 14460 true).2 = CreateResult.created := by
  have hval := validate_slot_time_false_iff now s e
  refine ⟨?_, ?_, by decide, by decide⟩
  · unfold create_slot
    rcases hv : validate_slot_time now s e with ⟨fst, msg⟩
    rw [hv] at hval
    cases fst
    · simpa [CreateResult.isInvalidTime] using hval
    · have hnd : ¬(s ≤ now ∨ e ≤ s ∨ e - s < 60 * 15 ∨ e - s > 60 * 240) := by
        simpa using hval
      by_cases hov : check_slot_overlap st s e b none = true
      · simp only [hov, if_true, CreateResult.isInvalidTime]
        simp
        omega
      · simp only [hov, if_false, CreateResult.isInvalidTime]
        simp
        omega
  · unfold create_slot
    rcases hv : validate_slot_time now s e with ⟨fst, msg⟩
    cases fst
    · intro _
      rfl
    · by_cases hov : check_slot_overlap st s e b none = true
      · simp [hov, CreateResult.isInvalidTime]
      · simp [hov, CreateResult.isInvalidTime]

/-- Witness for C8: creating with a start instant already in the past fails
and leaves the example store untouched. -/
theorem claim_C8_witness :
    (create_slot exSt 100 50 1000 true).2.isInvalidTime = true ∧
    (create_slot exSt 100 50 1000 true).1 = exSt :=
  ⟨by decide, (claim_C8_create_slot_contract exSt 100 50 1000 true).2.1 (by decide)⟩

end PsychoBot
